import Mathlib

/-!
Verification of `docs/background/plot_bgcube_true_reco.py`.

Shallow embedding conventions:
* Python floats are modelled as real numbers (`ℝ`); `x ** y` on positive
  bases is `Real.rpow`.
* Quantities are modelled by their numeric value in a fixed display unit
  (energies in TeV); a unit itself is modelled by its conversion factor to a
  fixed base unit.
* Cube data arrays are flattened to lists of rationals where the claims are
  about exact arithmetic on the data.
* Python's `ZeroDivisionError` is modelled by `Option`-valued variants of the
  defs that divide (`none` = the division raises).
-/

namespace PlotBgCube

/-- Embeds `power_law` (source lines 24-25):
`return norm*(energy/E_0)**-index`. -/
noncomputable def power_law (energy E_0 norm index : ℝ) : ℝ :=
  norm * (energy / E_0) ^ (-index)

/-- Embeds `int_power_law` (source lines 28-29):
`return norm/(1 - index)/E_0**-index*(energy_band[1]**(1 - index) - energy_band[0]**(1 - index))`.
The band `energy_band` is the pair `(energy_band[0], energy_band[1])`. -/
noncomputable def int_power_law (energy_band : ℝ × ℝ) (E_0 norm index : ℝ) : ℝ :=
  norm / (1 - index) / E_0 ^ (-index) *
    (energy_band.2 ^ (1 - index) - energy_band.1 ^ (1 - index))

/-- `int_power_law` with Python's division semantics made explicit: the body
divides by `1 - index` and by `E_0 ** -index`; a zero divisor raises
`ZeroDivisionError`, modelled as `none`. -/
noncomputable def int_power_law_checked (energy_band : ℝ × ℝ) (E_0 norm index : ℝ) :
    Option ℝ :=
  if 1 - index = 0 then none
  else if E_0 ^ (-index) = 0 then none
  else some (int_power_law energy_band E_0 norm index)

/-- Module constants (source lines 19-21): `E_REF = 1 TeV`, `NORM = 1`,
`INDEX = 1.5`. -/
noncomputable def E_REF : ℝ := 1

def NORM : ℝ := 1

noncomputable def INDEX : ℝ := 3 / 2

/-- C3: for every band `[a, b]`, reference energy `E_0 > 0`, `norm` and
`index ≠ 1`, `int_power_law (a, b) E_0 norm index` equals
`norm/(1-index)/E_0^(-index) * (b^(1-index) - a^(1-index))`, and (for a band
with positive endpoints) this is the analytic integral of the power law over
the band. -/
theorem int_power_law_closed_form (a b E_0 norm index : ℝ)
    (hE : 0 < E_0) (hi : index ≠ 1) :
    int_power_law (a, b) E_0 norm index
      = norm / (1 - index) / E_0 ^ (-index) * (b ^ (1 - index) - a ^ (1 - index))
    ∧ (0 < a → 0 < b →
        int_power_law (a, b) E_0 norm index
          = ∫ x in a..b, power_law x E_0 norm index) := by
  refine ⟨rfl, fun ha hb => ?_⟩
  have hmin : 0 < min a b := lt_min ha hb
  have hcongr :
      (∫ x in a..b, power_law x E_0 norm index)
        = ∫ x in a..b, norm / E_0 ^ (-index) * x ^ (-index) := by
    apply intervalIntegral.integral_congr
    intro x hx
    have hx0 : 0 < x := lt_of_lt_of_le hmin hx.1
    simp only [power_law]
    rw [Real.div_rpow hx0.le hE.le]
    ring
  have hne : -index ≠ -1 := fun h => hi (by linarith [neg_injective h])
  have hnotmem : (0 : ℝ) ∉ Set.uIcc a b := by
    intro h0
    exact absurd h0.1 (not_le.mpr hmin)
  have hpow : (∫ x in a..b, x ^ (-index))
      = (b ^ (-index + 1) - a ^ (-index + 1)) / (-index + 1) :=
    integral_rpow (Or.inr ⟨hne, hnotmem⟩)
  rw [hcongr, intervalIntegral.integral_const_mul, hpow]
  have h1 : -index + 1 = 1 - index := by ring
  rw [h1, int_power_law]
  ring

/-- Witness for C3 at `a = 1`, `b = 2`, `E_0 = 1`, `norm = 1`, `index = 0`. -/
theorem int_power_law_closed_form_witness :
    int_power_law (1, 2) 1 1 0
      = 1 / (1 - 0) / (1 : ℝ) ^ (-(0 : ℝ)) *
          ((2 : ℝ) ^ ((1 : ℝ) - 0) - (1 : ℝ) ^ ((1 : ℝ) - 0))
    ∧ int_power_law (1, 2) 1 1 0 = 1 := by
  refine ⟨(int_power_law_closed_form 1 2 1 1 0 (by norm_num) (by norm_num)).1, ?_⟩
  simp only [int_power_law]
  norm_num

/-- C4: `power_law` is given by the stated formula, and at the reference
energy (`energy = E_0 > 0`) it returns `norm`, for any `index`. -/
theorem power_law_formula_and_ref (energy E_0 norm index : ℝ) :
    power_law energy E_0 norm index = norm * (energy / E_0) ^ (-index)
    ∧ (0 < E_0 → power_law E_0 E_0 norm index = norm) := by
  refine ⟨rfl, fun hE => ?_⟩
  rw [power_law, div_self (ne_of_gt hE), Real.one_rpow, mul_one]

/-- Witness for C4 at `energy = E_0 = 2`, `norm = 5`, `index = 7`. -/
theorem power_law_formula_and_ref_witness :
    power_law 2 2 5 7 = 5 :=
  (power_law_formula_and_ref 2 2 5 7).2 (by norm_num)

/-- C5: with a positive reference energy, `int_power_law` hits a division by
zero exactly when `index = 1`; nothing in the function prevents a caller from
passing `index = 1`, in which case the division happens unguarded. -/
theorem int_power_law_div_zero_iff (energy_band : ℝ × ℝ) (E_0 norm index : ℝ)
    (hE : 0 < E_0) :
    int_power_law_checked energy_band E_0 norm index = none ↔ index = 1 := by
  have hEpow : E_0 ^ (-index) ≠ 0 := (Real.rpow_pos_of_pos hE _).ne'
  rw [int_power_law_checked]
  by_cases h : 1 - index = 0
  · have h1 : index = 1 := by linarith
    simp [h, h1]
  · have hne : index ≠ 1 := fun h1 => h (by rw [h1]; ring)
    simp [h, hEpow, hne]

/-- Witness for C5: at `index = 1` (band `(1, 2)`, `E_0 = 1 > 0`, `norm = 1`)
the checked evaluation fails. -/
theorem int_power_law_div_zero_iff_witness :
    int_power_law_checked (1, 2) 1 1 1 = none :=
  (int_power_law_div_zero_iff (1, 2) 1 1 1 (by norm_num)).mpr rfl

/-- C10: for `E_0 > 0` and `index ≠ 1`, `int_power_law` over a degenerate
band `(a, a)` is `0`, and reversing the band negates the result. -/
theorem int_power_law_degenerate_and_reversal (a b E_0 norm index : ℝ)
    (hE : 0 < E_0) (hi : index ≠ 1) :
    int_power_law (a, a) E_0 norm index = 0
    ∧ int_power_law (b, a) E_0 norm index
        = - int_power_law (a, b) E_0 norm index := by
  constructor <;> · simp only [int_power_law]; ring

/-- Witness for C10 at `a = 1`, `b = 2`, `E_0 = 1`, `norm = 1`, `index = 0`. -/
theorem int_power_law_degenerate_and_reversal_witness :
    int_power_law (1, 1) 1 1 0 = 0
    ∧ int_power_law (2, 1) 1 1 0 = - int_power_law (1, 2) 1 1 0 :=
  int_power_law_degenerate_and_reversal 1 2 1 1 0 (by norm_num) (by norm_num)

/-- Modelled from the spec: the background cube provided by the external
`gammapy.background.CubeBackgroundModel` library class (not under `src/`).
Per the spec's data model and glossary, a cube carries a mutable array of
rate values with a physical unit and an `integral` attribute, the "total of
all rate values weighted by bin volume". `data` is the flattened value
array (in the cube's own unit), `binVols` the matching bin volumes, and
`unitScale` the factor converting the cube's unit to a fixed base unit. -/
structure BgCube where
  data : List ℚ
  binVols : List ℚ
  unitScale : ℚ

/-- Sum of pointwise products, the "total of all rate values weighted by bin
volume". -/
def sumProd (xs ys : List ℚ) : ℚ :=
  (List.zipWith (· * ·) xs ys).sum

/-- Modelled from the spec: the cube's `integral` attribute, expressed in the
fixed base unit so that integrals of cubes with different units compare
consistently. -/
def integralBase (c : BgCube) : ℚ :=
  c.unitScale * sumProd c.data c.binVols

/-- Embeds the rescale step (source lines 67-69):
`bg_cube_model1.data *= integral2/integral1`. The ratio of the two integral
quantities is the dimensionless number `integralBase c2 / integralBase c1`. -/
def rescaleCube (c1 c2 : BgCube) : BgCube :=
  { c1 with data := c1.data.map (· * (integralBase c2 / integralBase c1)) }

/-- The rescale step with Python's division made explicit: dividing by a zero
`integral1` is undefined (`none`); nothing in the source guards against it. -/
def rescaleCubeChecked (c1 c2 : BgCube) : Option BgCube :=
  if integralBase c1 = 0 then none else some (rescaleCube c1 c2)

/-- Embeds the unit-conversion step (source line 72):
`bg_cube_model2.data = bg_cube_model2.data.to(bg_cube_model1.data.unit)`.
A value `v` in a unit of scale `s2` equals `v * s2 / s1` in a unit of scale
`s1`. -/
def convertUnits (c2 c1 : BgCube) : BgCube :=
  { c2 with
    data := c2.data.map (· * (c2.unitScale / c1.unitScale)),
    unitScale := c1.unitScale }

theorem sumProd_map_mul (xs ys : List ℚ) (r : ℚ) :
    sumProd (xs.map (· * r)) ys = r * sumProd xs ys := by
  induction xs generalizing ys with
  | nil => simp [sumProd]
  | cons x xs ih =>
    cases ys with
    | nil => simp [sumProd]
    | cons y ys =>
      simp only [List.map_cons, sumProd, List.zipWith_cons_cons, List.sum_cons] at *
      rw [ih ys]
      ring

/-- C1: after the normalization step (rescale of cube 1, unit conversion of
cube 2), the rescaled first cube's integral equals the second cube's integral
and the two cubes' data units match; needs the first cube's integral nonzero
and positive unit-conversion factors. -/
theorem normalization_invariant (c1 c2 : BgCube)
    (h1 : integralBase c1 ≠ 0)
    (hs1 : 0 < c1.unitScale) (hs2 : 0 < c2.unitScale) :
    integralBase (rescaleCube c1 c2) = integralBase c2
    ∧ (convertUnits c2 (rescaleCube c1 c2)).unitScale
        = (rescaleCube c1 c2).unitScale
    ∧ integralBase (convertUnits c2 (rescaleCube c1 c2)) = integralBase c2 := by
  refine ⟨?_, rfl, ?_⟩
  · have key : integralBase (rescaleCube c1 c2)
        = integralBase c2 / integralBase c1 * integralBase c1 := by
      simp only [integralBase, rescaleCube, sumProd_map_mul]
      ring
    rw [key, div_mul_cancel₀ _ h1]
  · have hs1' : c1.unitScale ≠ 0 := hs1.ne'
    simp only [integralBase, convertUnits, rescaleCube, sumProd_map_mul]
    field_simp

/-- Witness for C1: two concrete one-bin cubes with integrals 2 and 6. -/
theorem normalization_invariant_witness :
    integralBase (rescaleCube ⟨[2], [1], 1⟩ ⟨[3], [1], 2⟩) = integralBase ⟨[3], [1], 2⟩
    ∧ (convertUnits ⟨[3], [1], 2⟩ (rescaleCube ⟨[2], [1], 1⟩ ⟨[3], [1], 2⟩)).unitScale
        = (rescaleCube ⟨[2], [1], 1⟩ ⟨[3], [1], 2⟩).unitScale
    ∧ integralBase (convertUnits ⟨[3], [1], 2⟩ (rescaleCube ⟨[2], [1], 1⟩ ⟨[3], [1], 2⟩))
        = integralBase ⟨[3], [1], 2⟩ :=
  normalization_invariant ⟨[2], [1], 1⟩ ⟨[3], [1], 2⟩
    (by norm_num [integralBase, sumProd]) (by norm_num) (by norm_num)

/-- C8: rescaling an all-ones first cube of integral 10 against a second cube
of integral 25 makes every element of the first cube's data equal 5/2. -/
theorem rescale_all_ones (c1 c2 : BgCube)
    (hones : ∀ x ∈ c1.data, x = 1)
    (hI1 : integralBase c1 = 10) (hI2 : integralBase c2 = 25) :
    ∀ x ∈ (rescaleCube c1 c2).data, x = 5 / 2 := by
  intro x hx
  rw [rescaleCube] at hx
  simp only [List.mem_map] at hx
  obtain ⟨y, hy, hxy⟩ := hx
  rw [← hxy, hones y hy, hI1, hI2]
  norm_num

/-- Witness for C8: a concrete all-ones two-bin cube of integral 10 and a
one-bin cube of integral 25; the first rescaled element is 5/2. -/
theorem rescale_all_ones_witness :
    (rescaleCube (⟨[1, 1], [5, 5], 1⟩ : BgCube) ⟨[25], [1], 1⟩).data.headD 0 = 5 / 2 :=
  rescale_all_ones ⟨[1, 1], [5, 5], 1⟩ ⟨[25], [1], 1⟩
    (by intro x hx; simp at hx; exact hx)
    (by norm_num [integralBase, sumProd]) (by norm_num [integralBase, sumProd])
    ((rescaleCube (⟨[1, 1], [5, 5], 1⟩ : BgCube) ⟨[25], [1], 1⟩).data.headD 0)
    (by simp [rescaleCube])

/-- C9: the rescale step divides by the first cube's integral with no guard:
it is well-defined exactly when that integral is nonzero, and at integral 0
the division by zero occurs (modelled as `none`). -/
theorem rescale_div_zero_iff (c1 c2 : BgCube) :
    rescaleCubeChecked c1 c2 = none ↔ integralBase c1 = 0 := by
  rw [rescaleCubeChecked]
  by_cases h : integralBase c1 = 0 <;> simp [h]

/-- Embeds `np.trapz(y=ys, x=xs)`: the trapezoidal-rule integral
`Σ (x_(k+1) - x_k) * (y_k + y_(k+1)) / 2` of the sampled curve. -/
noncomputable def trapz : List ℝ → List ℝ → ℝ
  | x1 :: x2 :: xs, y1 :: y2 :: ys =>
      (x2 - x1) * (y1 + y2) / 2 + trapz (x2 :: xs) (y2 :: ys)
  | [], _ => 0
  | [_], _ => 0
  | _ :: _ :: _, [] => 0
  | _ :: _ :: _, [_] => 0

/-- A matplotlib line: the (x, y) sample points returned by `get_xydata()`,
as the two columns `[:,0]` and `[:,1]`. -/
structure Curve where
  xs : List ℝ
  ys : List ℝ

/-- A matplotlib axis: its title (`get_title`/`set_title`) and its list of
lines (`get_lines()`), in the order the plot calls added them. -/
structure Axis where
  title : String
  lines : List Curve

def emptyAxis : Axis := ⟨"", []⟩

/-- What one `bg_cube_model.plot_spectrum(coord=..., ax=..., ...)` call
contributes to an axis: the spectrum curve it draws and the auto-generated
axis title (the detector-bin title) it sets. -/
structure BgSpectrum where
  curve : Curve
  title : String

/-- A `plot_spectrum` call: appends the spectrum's line to the axis and sets
the axis title to the auto-generated one. -/
def plotSpectrum (ax : Axis) (s : BgSpectrum) : Axis :=
  { ax with lines := ax.lines ++ [s.curve], title := s.title }

/-- Embeds the read-back `axes[i, 2].get_lines()[0]` (source lines 118-119,
130-131, 165-166, 177-178): the curve whose sample points the overlay
normalization uses is the line at index 0 of the axis. -/
def overlayBaseCurve (ax : Axis) : Option Curve :=
  ax.lines.head?

/-- The overlay curve computed from a base curve `c` (source lines 118-126):
`plot_data_int = np.trapz(y, x)`, `energy_band = [x[0], x[-1]]`,
`model_int = int_power_law(energy_band, E_0, norm, index)`, and the plotted
y-values are `plot_data_int/model_int * power_law(x, E_0, norm, index)` at
the same x sample points. -/
noncomputable def overlayCurve (c : Curve) (E_0 norm index : ℝ) : Curve :=
  let plot_data_int := trapz c.xs c.ys
  let energy_band := (c.xs.headD 0, c.xs.getLastD 0)
  let model_int := int_power_law energy_band E_0 norm index
  ⟨c.xs, c.xs.map fun x => plot_data_int / model_int * power_law x E_0 norm index⟩

/-- One overlay `axes[i, 2].plot(...)` block: reads line 0 back from the
axis and appends the scaled power-law curve computed from it. -/
noncomputable def addOverlay (ax : Axis) (E_0 norm index : ℝ) : Axis :=
  match overlayBaseCurve ax with
  | none => ax
  | some c => { ax with lines := ax.lines ++ [overlayCurve c E_0 norm index] }

/-- The `ValueError` message built at source lines 106-107 and 153-154:
`"Expected same det binning, but got "` followed by both titles in quotes. -/
def specPanelErrorMsg (t1 t2 : String) : String :=
  "Expected same det binning, but got " ++
    "\"" ++ t1 ++ "\" and \"" ++ t2 ++ "\""

/-- The state of a spectral panel at the point of the title check: both
spectra have been plotted, nothing else. -/
def panelAtCheck (ax0 : Axis) (s1 s2 : BgSpectrum) : Axis :=
  plotSpectrum (plotSpectrum ax0 s1) s2

/-- One spectral panel of the script (source lines 95-140 resp. 142-187):
plot both cubes' spectra, raise `ValueError` if the two auto-generated
titles differ (before any overlay is drawn), otherwise keep the common
title and draw the two scaled power-law overlays with `index = INDEX` and
`index = INDEX + 1`. -/
noncomputable def makeSpectralPanel (ax0 : Axis) (s1 s2 : BgSpectrum) :
    Except String Axis :=
  let ax1 := plotSpectrum ax0 s1
  let spec_title1 := ax1.title
  let ax2 := plotSpectrum ax1 s2
  let spec_title2 := ax2.title
  if spec_title1 = spec_title2 then
    let axT : Axis := { ax2 with title := spec_title1 }
    Except.ok (addOverlay (addOverlay axT E_REF NORM INDEX) E_REF NORM (INDEX + 1))
  else
    Except.error (specPanelErrorMsg spec_title1 spec_title2)

/-- The library plotting behaviour of one loaded cube, abstracted: the
auto-generated image title of `plot_image` at an energy, and the spectrum
(curve and auto title) of `plot_spectrum` at a sky coordinate. -/
structure CubePlotting where
  imageTitle : ℝ → String
  spectrum : ℝ × ℝ → BgSpectrum

/-- The sky coordinates of the two spectral panels, `Angle([0., 0.], 'degree')`
and `Angle([2., 2.], 'degree')` in degrees. -/
def coordA : ℝ × ℝ := (0, 0)

def coordB : ℝ × ℝ := (2, 2)

/-- The 2×3 figure of axes the script builds. -/
structure Figure where
  ax00 : Axis
  ax01 : Axis
  ax02 : Axis
  ax10 : Axis
  ax11 : Axis
  ax12 : Axis

/-- A `plot_image` call followed by the title prefixing of the script
(e.g. source lines 83-84): the axis ends with title `name ++ ": " ++ auto`. -/
def plotImagePanel (name autoTitle : String) : Axis :=
  { title := name ++ ": " ++ autoTitle, lines := [] }

/-- Embeds `plot_bg_cube_model_comparison` after the two cubes are loaded
(source lines 65-189): normalize the cubes, render the four image panels,
build the two spectral panels (each of which may raise), and return the
figure. `p1`/`p2` are the library plotting behaviours of the two cubes. -/
noncomputable def plot_bg_cube_model_comparison
    (c1 c2 : BgCube) (p1 p2 : CubePlotting) (name1 name2 : String) :
    Except String Figure :=
  let c1n := rescaleCube c1 c2
  let _c2n := convertUnits c2 c1n
  let ax00 := plotImagePanel name1 (p1.imageTitle 1)
  let ax10 := plotImagePanel name1 (p1.imageTitle 10)
  let ax01 := plotImagePanel name2 (p2.imageTitle 1)
  let ax11 := plotImagePanel name2 (p2.imageTitle 10)
  match makeSpectralPanel emptyAxis (p1.spectrum coordA) (p2.spectrum coordA) with
  | Except.error e => Except.error e
  | Except.ok ax02 =>
    match makeSpectralPanel emptyAxis (p1.spectrum coordB) (p2.spectrum coordB) with
    | Except.error e => Except.error e
    | Except.ok ax12 => Except.ok ⟨ax00, ax01, ax02, ax10, ax11, ax12⟩

theorem makeSpectralPanel_titles_eq (ax0 : Axis) (s1 s2 : BgSpectrum)
    (h : s1.title = s2.title) :
    makeSpectralPanel ax0 s1 s2
      = Except.ok (addOverlay (addOverlay
          ⟨s1.title, ax0.lines ++ [s1.curve] ++ [s2.curve]⟩
          E_REF NORM INDEX) E_REF NORM (INDEX + 1)) := by
  simp [makeSpectralPanel, plotSpectrum, h]

theorem makeSpectralPanel_titles_ne (ax0 : Axis) (s1 s2 : BgSpectrum)
    (h : s1.title ≠ s2.title) :
    makeSpectralPanel ax0 s1 s2
      = Except.error (specPanelErrorMsg s1.title s2.title) := by
  simp [makeSpectralPanel, plotSpectrum, h]

/-- C2: the comparison raises a `ValueError` exactly when a spectral panel's
two auto-generated titles differ; the first mismatching panel's message is
reported, it names both conflicting titles verbatim, the panel holds no
overlay curve at the moment of the raise, and no other branch of the
function produces an error. -/
theorem spectral_panel_error_iff (c1 c2 : BgCube) (p1 p2 : CubePlotting)
    (name1 name2 : String) :
    ((∃ msg, plot_bg_cube_model_comparison c1 c2 p1 p2 name1 name2
        = Except.error msg)
      ↔ (p1.spectrum coordA).title ≠ (p2.spectrum coordA).title
        ∨ (p1.spectrum coordB).title ≠ (p2.spectrum coordB).title)
    ∧ ((p1.spectrum coordA).title ≠ (p2.spectrum coordA).title →
        plot_bg_cube_model_comparison c1 c2 p1 p2 name1 name2
          = Except.error (specPanelErrorMsg (p1.spectrum coordA).title
              (p2.spectrum coordA).title))
    ∧ ((p1.spectrum coordA).title = (p2.spectrum coordA).title →
        (p1.spectrum coordB).title ≠ (p2.spectrum coordB).title →
        plot_bg_cube_model_comparison c1 c2 p1 p2 name1 name2
          = Except.error (specPanelErrorMsg (p1.spectrum coordB).title
              (p2.spectrum coordB).title))
    ∧ (∀ t1 t2, ∃ u1 u2 u3, specPanelErrorMsg t1 t2 = u1 ++ t1 ++ u2 ++ t2 ++ u3)
    ∧ (∀ ax0 s1 s2, s1.title ≠ s2.title →
        makeSpectralPanel ax0 s1 s2
          = Except.error (specPanelErrorMsg s1.title s2.title)
        ∧ (panelAtCheck ax0 s1 s2).lines = ax0.lines ++ [s1.curve, s2.curve]) := by
  refine ⟨?_, ?_, ?_, ?_, ?_⟩
  · by_cases hA : (p1.spectrum coordA).title = (p2.spectrum coordA).title
      <;> by_cases hB : (p1.spectrum coordB).title = (p2.spectrum coordB).title
      <;> simp [plot_bg_cube_model_comparison, makeSpectralPanel_titles_eq,
            makeSpectralPanel_titles_ne, hA, hB]
  · intro hA
    simp [plot_bg_cube_model_comparison, makeSpectralPanel_titles_ne _ _ _ hA]
  · intro hA hB
    simp [plot_bg_cube_model_comparison, makeSpectralPanel_titles_eq _ _ _ hA,
      makeSpectralPanel_titles_ne _ _ _ hB]
  · intro t1 t2
    exact ⟨"Expected same det binning, but got \"", "\" and \"", "\"", rfl⟩
  · intro ax0 s1 s2 h
    exact ⟨makeSpectralPanel_titles_ne ax0 s1 s2 h,
      by simp [panelAtCheck, plotSpectrum]⟩

/-- Witness for C2: concrete cubes and plotting behaviours whose first panel
gets titles "a" and "b"; the run fails with the message naming both. -/
theorem spectral_panel_error_iff_witness :
    plot_bg_cube_model_comparison ⟨[], [], 1⟩ ⟨[], [], 1⟩
        ⟨fun _ => "i", fun _ => ⟨⟨[], []⟩, "a"⟩⟩
        ⟨fun _ => "i", fun _ => ⟨⟨[], []⟩, "b"⟩⟩ "true" "reco"
      = Except.error (specPanelErrorMsg "a" "b") :=
  (spectral_panel_error_iff ⟨[], [], 1⟩ ⟨[], [], 1⟩
      ⟨fun _ => "i", fun _ => ⟨⟨[], []⟩, "a"⟩⟩
      ⟨fun _ => "i", fun _ => ⟨⟨[], []⟩, "b"⟩⟩ "true" "reco").2.1
    (by simp)

/-- C6 counterexample: after plotting two distinct spectrum curves on a
panel, the read-back `get_lines()[0]` returns the first plotted curve, while
the most recently plotted curve is the second one, and the two differ. -/
theorem overlay_base_not_most_recent :
    overlayBaseCurve (panelAtCheck emptyAxis ⟨⟨[1], [1]⟩, "t"⟩ ⟨⟨[2], [2]⟩, "t"⟩)
      = some ⟨[1], [1]⟩
    ∧ (panelAtCheck emptyAxis ⟨⟨[1], [1]⟩, "t"⟩ ⟨⟨[2], [2]⟩, "t"⟩).lines.getLast?
      = some ⟨[2], [2]⟩
    ∧ (⟨[1], [1]⟩ : Curve) ≠ ⟨[2], [2]⟩ := by
  refine ⟨rfl, rfl, fun h => ?_⟩
  have hxs := congrArg Curve.xs h
  simp only [List.cons.injEq] at hxs
  norm_num at hxs

/-- C6 (amended): the overlay-normalization step reads back the first plotted
curve on the panel (line index 0, the first cube's spectrum), not the most
recently added one, and both overlay curves of a panel are computed from that
first curve. -/
theorem overlay_base_is_first_curve (ax0 : Axis) (s1 s2 : BgSpectrum)
    (hax : ax0.lines = []) (ht : s1.title = s2.title) :
    overlayBaseCurve (panelAtCheck ax0 s1 s2) = some s1.curve
    ∧ (panelAtCheck ax0 s1 s2).lines.getLast? = some s2.curve
    ∧ makeSpectralPanel ax0 s1 s2 = Except.ok
        ⟨s1.title, [s1.curve, s2.curve,
          overlayCurve s1.curve E_REF NORM INDEX,
          overlayCurve s1.curve E_REF NORM (INDEX + 1)]⟩ := by
  refine ⟨?_, ?_, ?_⟩
  · simp [overlayBaseCurve, panelAtCheck, plotSpectrum, hax]
  · simp [panelAtCheck, plotSpectrum, hax]
  · rw [makeSpectralPanel_titles_eq ax0 s1 s2 ht]
    simp [addOverlay, overlayBaseCurve, hax]

/-- Witness for C6 (amended) at two concrete spectra on an empty panel. -/
theorem overlay_base_is_first_curve_witness :
    overlayBaseCurve (panelAtCheck emptyAxis ⟨⟨[1], [1]⟩, "t"⟩ ⟨⟨[2], [2]⟩, "t"⟩)
      = some ⟨[1], [1]⟩
    ∧ (panelAtCheck emptyAxis ⟨⟨[1], [1]⟩, "t"⟩ ⟨⟨[2], [2]⟩, "t"⟩).lines.getLast?
      = some ⟨[2], [2]⟩
    ∧ makeSpectralPanel emptyAxis ⟨⟨[1], [1]⟩, "t"⟩ ⟨⟨[2], [2]⟩, "t"⟩ = Except.ok
        ⟨"t", [⟨[1], [1]⟩, ⟨[2], [2]⟩,
          overlayCurve ⟨[1], [1]⟩ E_REF NORM INDEX,
          overlayCurve ⟨[1], [1]⟩ E_REF NORM (INDEX + 1)]⟩ :=
  overlay_base_is_first_curve emptyAxis ⟨⟨[1], [1]⟩, "t"⟩ ⟨⟨[2], [2]⟩, "t"⟩ rfl rfl

theorem trapz_smul (k : ℝ) (xs ys : List ℝ) :
    trapz xs (ys.map fun y => k * y) = k * trapz xs ys := by
  induction xs generalizing ys with
  | nil => cases ys <;> simp [trapz]
  | cons x1 xs ih =>
    cases xs with
    | nil =>
      cases ys with
      | nil => simp [trapz]
      | cons y1 ys => simp [trapz]
    | cons x2 xs' =>
      cases ys with
      | nil => simp [trapz]
      | cons y1 ys' =>
        cases ys' with
        | nil => simp [trapz]
        | cons y2 ys'' =>
          have h := ih (y2 :: ys'')
          simp only [List.map_cons] at h ⊢
          rw [trapz, trapz, h]
          ring

theorem four_rpow_half : (4 : ℝ) ^ ((1 : ℝ) / 2) = 2 := by
  have h4 : (4 : ℝ) = (2 : ℝ) ^ (2 : ℝ) := by norm_num
  rw [h4, ← Real.rpow_mul (by norm_num : (0 : ℝ) ≤ 2)]
  norm_num

theorem four_rpow_neg_half : (4 : ℝ) ^ (-((1 : ℝ) / 2)) = 1 / 2 := by
  rw [Real.rpow_neg (by norm_num : (0 : ℝ) ≤ 4), four_rpow_half]
  norm_num

theorem four_rpow_neg_threehalf : (4 : ℝ) ^ (-((3 : ℝ) / 2)) = 1 / 8 := by
  have h4 : (4 : ℝ) = (2 : ℝ) ^ (2 : ℝ) := by norm_num
  rw [Real.rpow_neg (by norm_num : (0 : ℝ) ≤ 4), h4,
    ← Real.rpow_mul (by norm_num : (0 : ℝ) ≤ 2)]
  norm_num

/-- C7 counterexample: a plotted curve with x samples `[1, 4]` and y samples
`[1, 1]` has trapezoidal integral 3, but the overlay curve built from it at
the script's constants (`E_REF = 1`, `NORM = 1`, `INDEX = 3/2`) has y samples
`[3, 3/8]`, whose recomputed trapezoidal integral is `81/16 ≠ 3`. -/
theorem overlay_trapz_mismatch :
    trapz [(1 : ℝ), 4] [(1 : ℝ), 1] = 3
    ∧ overlayCurve ⟨[1, 4], [1, 1]⟩ E_REF NORM INDEX = ⟨[1, 4], [3, 3 / 8]⟩
    ∧ trapz [(1 : ℝ), 4] [(3 : ℝ), 3 / 8] = 81 / 16
    ∧ (81 / 16 : ℝ) ≠ 3 := by
  have hT : trapz [(1 : ℝ), 4] [(1 : ℝ), 1] = 3 := by
    rw [trapz, trapz]
    norm_num
  have hM : int_power_law ((1 : ℝ), 4) 1 1 (3 / 2) = 1 := by
    simp only [int_power_law, Real.one_rpow]
    rw [show (1 : ℝ) - 3 / 2 = -((1 : ℝ) / 2) by norm_num, four_rpow_neg_half]
    norm_num
  have hP1 : power_law 1 1 1 (3 / 2) = 1 := by
    simp [power_law, Real.one_rpow]
  have hP4 : power_law 4 1 1 (3 / 2) = 1 / 8 := by
    rw [power_law, show (4 : ℝ) / 1 = 4 by norm_num,
      show -(3 / 2 : ℝ) = -((3 : ℝ) / 2) by norm_num, four_rpow_neg_threehalf]
    norm_num
  refine ⟨hT, ?_, ?_, by norm_num⟩
  · show (⟨[1, 4], [1, 4].map fun x =>
        trapz [1, 4] [1, 1] / int_power_law ([(1 : ℝ), 4].headD 0, [(1 : ℝ), 4].getLastD 0) 1 1 (3 / 2)
          * power_law x 1 1 (3 / 2)⟩ : Curve) = ⟨[1, 4], [3, 3 / 8]⟩
    rw [show ([(1 : ℝ), 4].headD 0, [(1 : ℝ), 4].getLastD 0) = ((1 : ℝ), (4 : ℝ)) from rfl]
    rw [hT, hM]
    simp only [List.map_cons, List.map_nil, hP1, hP4]
    norm_num
  · rw [trapz, trapz]
    norm_num

/-- C7 (amended): the overlay curve is the power law at the plotted curve's
x sample points scaled by `plot_data_int / model_int`; consequently its own
recomputed trapezoidal integral equals the plotted curve's trapezoidal
integral times the ratio of the trapezoidal integral of the power-law
samples to the analytic integral `model_int` — not the plotted integral
itself in general. -/
theorem overlay_curve_scaling (c : Curve) (E_0 norm index : ℝ) :
    (overlayCurve c E_0 norm index).xs = c.xs
    ∧ (overlayCurve c E_0 norm index).ys
        = c.xs.map (fun x =>
            trapz c.xs c.ys
              / int_power_law (c.xs.headD 0, c.xs.getLastD 0) E_0 norm index
              * power_law x E_0 norm index)
    ∧ trapz (overlayCurve c E_0 norm index).xs (overlayCurve c E_0 norm index).ys
        = trapz c.xs c.ys
            / int_power_law (c.xs.headD 0, c.xs.getLastD 0) E_0 norm index
            * trapz c.xs (c.xs.map fun x => power_law x E_0 norm index) := by
  refine ⟨rfl, rfl, ?_⟩
  show trapz c.xs (c.xs.map fun x =>
      trapz c.xs c.ys / int_power_law (c.xs.headD 0, c.xs.getLastD 0) E_0 norm index
        * power_law x E_0 norm index) = _
  rw [show (c.xs.map fun x =>
      trapz c.xs c.ys / int_power_law (c.xs.headD 0, c.xs.getLastD 0) E_0 norm index
        * power_law x E_0 norm index)
    = ((c.xs.map fun x => power_law x E_0 norm index).map fun y =>
        trapz c.xs c.ys / int_power_law (c.xs.headD 0, c.xs.getLastD 0) E_0 norm index
          * y) from by simp [List.map_map, Function.comp]]
  rw [trapz_smul]

end PlotBgCube
